import Mathlib

/-!
Shallow embedding of `src/gpu/GrBitmapTextureMaker.cpp` (Skia).

The unit under verification is the bitmap-to-texture resolution and caching
protocol: `GrBitmapTextureMaker`'s constructor (cache-key derivation),
`refOriginalTextureProxy` (the resolution engine) and `makeCopyKey`.

External collaborators (the proxy provider / resource cache, the GPU caps
query, the pixel read-back) are modelled by an oracle record
(`ProviderEnv`) giving the result each external call would return during
one resolution call, and the side effects performed on the store are
recorded as an ordered event trace (`Event`), so that claims about which
store mutations happen, and in which order, become statements about the
trace.
-/

/-- CPU-side color types (`SkColorType`), restricted to representative
constructors. -/
inductive SkColorType where
  | kAlpha_8
  | kRGB_565
  | kRGBA_8888
  | kRGB_888x
  | kBGRA_8888
  | kGray_8
  | kRGBA_F16
deriving DecidableEq, Repr

/-- GPU-side color types (`GrColorType`), restricted to representative
constructors. -/
inductive GrColorType where
  | kAlpha_8
  | kBGR_565
  | kRGBA_8888
  | kRGB_888x
  | kBGRA_8888
  | kGray_8
  | kRGBA_F16
deriving DecidableEq, Repr

/-- Modelled from the spec: `SkColorTypeToGrColorType` (declared in
`src/gpu/SkGr.h`, body not under `src/`) maps each CPU color encoding to
its GPU analogue; the map is fixed and call-independent. -/
def SkColorTypeToGrColorType : SkColorType → GrColorType
  | SkColorType.kAlpha_8 => GrColorType.kAlpha_8
  | SkColorType.kRGB_565 => GrColorType.kBGR_565
  | SkColorType.kRGBA_8888 => GrColorType.kRGBA_8888
  | SkColorType.kRGB_888x => GrColorType.kRGB_888x
  | SkColorType.kBGRA_8888 => GrColorType.kBGRA_8888
  | SkColorType.kGray_8 => GrColorType.kGray_8
  | SkColorType.kRGBA_F16 => GrColorType.kRGBA_F16

/-- `GrMipMapped`: mip status of a texture proxy. -/
inductive GrMipMapped where
  | kNo
  | kYes
deriving DecidableEq, Repr

/-- `SkBackingFit`: exact-size versus pool-sized allocation. -/
inductive SkBackingFit where
  | kApprox
  | kExact
deriving DecidableEq, Repr

/-- `GrBitmapTextureMaker::Cached` flag of the constructor. -/
inductive Cached where
  | kNo
  | kYes
deriving DecidableEq, Repr

/-- `AllowedTexGenType`: the generation policy of
`refOriginalTextureProxy` (cheap-only versus full creation). -/
inductive AllowedTexGenType where
  | kCheap
  | kAny
deriving DecidableEq, Repr

/-- `SkIRect`, as used by `SkIRect::MakeXYWH`. -/
structure SkIRect where
  fLeft : Int
  fTop : Int
  fRight : Int
  fBottom : Int
deriving DecidableEq, Repr

/-- `SkIRect::MakeXYWH(x, y, w, h)`. -/
def SkIRect.MakeXYWH (x y w h : Int) : SkIRect :=
  { fLeft := x, fTop := y, fRight := x + w, fBottom := y + h }

/-- The relevant state of an `SkBitmap`: color/alpha encoding, color
space (opaque id), volatility, pixel-ref generation id, pixel-ref origin
and dimensions. -/
structure SkBitmap where
  colorType : SkColorType
  alphaType : Nat
  colorSpace : Nat
  isVolatile : Bool
  generationID : Nat
  pixelRefOriginX : Int
  pixelRefOriginY : Int
  width : Int
  height : Int
deriving DecidableEq, Repr

/-- `GrImageInfo` as produced by `get_image_info`. -/
structure GrImageInfo where
  colorType : GrColorType
  alphaType : Nat
  colorSpace : Nat
  width : Int
  height : Int
deriving DecidableEq, Repr

/-- The GPU capability query consumed by `get_image_info`:
`caps()->getDefaultBackendFormat(ct, GrRenderable::kNo).isValid()`,
i.e. whether a color type has a valid default non-renderable backend
format. -/
structure GrCaps where
  validNonRenderableFormat : GrColorType → Bool

/-- `get_image_info` (lines 20-27 of the source): convert the bitmap's
color type to a GPU color type; if the GPU has no valid non-renderable
default format for it, fall back to `GrColorType::kRGBA_8888`. -/
def get_image_info (caps : GrCaps) (bitmap : SkBitmap) : GrImageInfo :=
  let ct0 := SkColorTypeToGrColorType bitmap.colorType
  let ct := if caps.validNonRenderableFormat ct0 then ct0 else GrColorType.kRGBA_8888
  { colorType := ct, alphaType := bitmap.alphaType, colorSpace := bitmap.colorSpace,
    width := bitmap.width, height := bitmap.height }

/-- Modelled from the spec: `GrMakeKeyFromImageID` (`src/gpu/SkGr.cpp`,
body not under `src/`) builds the unique cache key from the pixel-ref
generation id and the subset rectangle, and nothing else. -/
structure GrUniqueKey where
  imageID : Nat
  subset : SkIRect
deriving DecidableEq, Repr

def GrMakeKeyFromImageID (imageID : Nat) (subset : SkIRect) : GrUniqueKey :=
  { imageID := imageID, subset := subset }

/-- A texture proxy: an opaque store handle (`pid`) plus its mip status. -/
structure GrTextureProxy where
  pid : Nat
  mipMapped : GrMipMapped
deriving DecidableEq, Repr

/-- The state of a `GrBitmapTextureMaker` after construction: the image
info color type chosen by `get_image_info` (held by the `INHERITED`
`GrTextureMaker`), the bitmap, the fit, and `fOriginalKey`
(`none` models an invalid / never-initialized `GrUniqueKey`). -/
structure GrBitmapTextureMaker where
  thisColorType : GrColorType
  fBitmap : SkBitmap
  fFit : SkBackingFit
  fOriginalKey : Option GrUniqueKey
deriving DecidableEq, Repr

/-- The constructor `GrBitmapTextureMaker::GrBitmapTextureMaker`
(lines 29-40): `fOriginalKey` is built from
`(generationID, MakeXYWH(origin.x, origin.y, width, height))` exactly
when the bitmap is non-volatile and caching was requested. -/
def GrBitmapTextureMaker.construct (caps : GrCaps) (bitmap : SkBitmap) (cached : Cached)
    (fit : SkBackingFit) : GrBitmapTextureMaker :=
  { thisColorType := (get_image_info caps bitmap).colorType
    fBitmap := bitmap
    fFit := fit
    fOriginalKey :=
      if bitmap.isVolatile = false ∧ cached = Cached.kYes then
        some (GrMakeKeyFromImageID bitmap.generationID
          (SkIRect.MakeXYWH bitmap.pixelRefOriginX bitmap.pixelRefOriginY
            bitmap.width bitmap.height))
      else none }

/-- One observable interaction of `refOriginalTextureProxy` with its
collaborators, in call order. -/
inductive Event where
  | findOrCreateByUniqueKey
  | tryAllocPixels
  | readPixels
  | createFromBitmap (usedFallbackCopy : Bool) (requested : GrMipMapped)
  | assignUniqueKeyToProxy (p : GrTextureProxy)
  | installInvalidator
  | copyBaseMipMap (src : GrTextureProxy)
  | removeUniqueKeyFromProxy (p : GrTextureProxy)
deriving DecidableEq, Repr

/-- Oracle for the external calls a single `refOriginalTextureProxy`
call can make: what the proxy provider finds under the key, whether the
8888 fallback allocation and the pixel read-back succeed, what
`createProxyFromBitmap` returns, and what
`GrCopyBaseMipMapToTextureProxy` returns. -/
structure ProviderEnv where
  foundProxy : Option GrTextureProxy
  allocOk : Bool
  readOk : Bool
  createdProxy : Option GrTextureProxy
  mippedCopy : Option GrTextureProxy
deriving DecidableEq, Repr

/-- Lines 90-119: the mip-upgrade sub-protocol. `GrCopyBaseMipMapToTextureProxy`
is called on the un-mipped `p`; on success, when the key is valid, the key is
removed from `p`, assigned to the mipped proxy, and the invalidator is
re-installed, and the mipped proxy is returned; on failure `p` itself is
returned (skbug.com/7094 fallback). -/
def mipUpgradeStep (env : ProviderEnv) (keyValid : Bool) (p : GrTextureProxy)
    (t : List Event) : Option GrTextureProxy × List Event :=
  let t := t ++ [Event.copyBaseMipMap p]
  match env.mippedCopy with
  | some mippedProxy =>
    if keyValid then
      (some mippedProxy,
        t ++ [Event.removeUniqueKeyFromProxy p,
              Event.assignUniqueKeyToProxy mippedProxy,
              Event.installInvalidator])
    else (some mippedProxy, t)
  | none => (some p, t)

/-- Lines 75-88 and 90-120, after `createProxyFromBitmap` returned: if
creation failed, fall through to the final `return nullptr`; otherwise
assign the key (when valid), and either install the invalidator and
return (mip requirement already satisfied) or enter the mip-upgrade
sub-protocol. -/
def afterCreateStep (env : ProviderEnv) (keyValid : Bool) (willBeMipped : Bool)
    (t : List Event) : Option GrTextureProxy × List Event :=
  match env.createdProxy with
  | none => (none, t)
  | some p =>
    let t := if keyValid then t ++ [Event.assignUniqueKeyToProxy p] else t
    if willBeMipped = false ∨ p.mipMapped = GrMipMapped.kYes then
      (some p, if keyValid then t ++ [Event.installInvalidator] else t)
    else
      mipUpgradeStep env keyValid p t

/-- Lines 60-88: the creation path, entered only with no proxy in hand.
If `get_image_info` fell back to a different color type than the
bitmap's, first allocate an RGBA-8888 copy and read the pixels into it
(either failure returns null); then create the proxy from the (possibly
converted) bitmap, requesting mips iff `willBeMipped`. -/
def createStep (m : GrBitmapTextureMaker) (env : ProviderEnv) (willBeMipped : Bool)
    (t : List Event) : Option GrTextureProxy × List Event :=
  let requested := if willBeMipped then GrMipMapped.kYes else GrMipMapped.kNo
  let keyValid := m.fOriginalKey.isSome
  if m.thisColorType ≠ SkColorTypeToGrColorType m.fBitmap.colorType then
    let t := t ++ [Event.tryAllocPixels]
    if env.allocOk = false then (none, t)
    else
      let t := t ++ [Event.readPixels]
      if env.readOk = false then (none, t)
      else afterCreateStep env keyValid willBeMipped
        (t ++ [Event.createFromBitmap true requested])
  else
    afterCreateStep env keyValid willBeMipped
      (t ++ [Event.createFromBitmap false requested])

/-- `GrBitmapTextureMaker::refOriginalTextureProxy` (lines 42-121),
returning the resulting proxy (or null) together with the ordered trace
of store interactions it performed. -/
def refOriginalTextureProxy (m : GrBitmapTextureMaker) (env : ProviderEnv)
    (willBeMipped : Bool) (onlyIfFast : AllowedTexGenType) :
    Option GrTextureProxy × List Event :=
  if onlyIfFast = AllowedTexGenType.kCheap then (none, [])
  else
    match m.fOriginalKey with
    | some _ =>
      let t := [Event.findOrCreateByUniqueKey]
      match env.foundProxy with
      | some p =>
        if willBeMipped = false ∨ p.mipMapped = GrMipMapped.kYes then (some p, t)
        else mipUpgradeStep env true p t
      | none => createStep m env willBeMipped t
    | none => createStep m env willBeMipped []

/-- `GrBitmapTextureMaker::makeCopyKey` (lines 123-128): derive a copy
key from `fOriginalKey` and the copy params only when `fOriginalKey` is
valid. `MakeCopyKeyFromOrigKey` itself is modelled below. -/
structure CopyParams where
  filter : Nat
  width : Int
  height : Int
deriving DecidableEq, Repr

/-- Modelled from the spec: `MakeCopyKeyFromOrigKey` (inherited from
`GrTextureProducer`, not under `src/`) builds the copy key from the
original key plus the transform (copy) parameters, and nothing else. -/
structure CopyKey where
  orig : GrUniqueKey
  params : CopyParams
deriving DecidableEq, Repr

def MakeCopyKeyFromOrigKey (orig : GrUniqueKey) (params : CopyParams) : CopyKey :=
  { orig := orig, params := params }

def GrBitmapTextureMaker.makeCopyKey (m : GrBitmapTextureMaker)
    (copyParams : CopyParams) : Option CopyKey :=
  match m.fOriginalKey with
  | some k => some (MakeCopyKeyFromOrigKey k copyParams)
  | none => none

/-- Which proxy (by `pid`) currently holds `fOriginalKey` in the store,
after an event: `assignUniqueKeyToProxy` re-targets the key,
`removeUniqueKeyFromProxy` removes it from the named proxy. -/
def applyKeyEvent (owner : Option Nat) (e : Event) : Option Nat :=
  match e with
  | Event.assignUniqueKeyToProxy p => some p.pid
  | Event.removeUniqueKeyFromProxy p => if owner = some p.pid then none else owner
  | _ => owner

def keyOwnerAfter (owner : Option Nat) (t : List Event) : Option Nat :=
  t.foldl applyKeyEvent owner

/-- The key's owner when `refOriginalTextureProxy` starts: a proxy found
under the key by `findOrCreateProxyByUniqueKey` holds that key (the
source asserts this at line 107); with no valid key or no found proxy,
nothing holds it. -/
def initialKeyOwner (m : GrBitmapTextureMaker) (env : ProviderEnv) : Option Nat :=
  match m.fOriginalKey, env.foundProxy with
  | some _, some p => some p.pid
  | _, _ => none

/-- Number of `installInvalidator` events in a trace. -/
def countInstalls : List Event → Nat
  | [] => 0
  | Event.installInvalidator :: rest => countInstalls rest + 1
  | _ :: rest => countInstalls rest

/-! Concrete sample inputs, used to exercise the embedding at specific
points. -/

/-- A 64x64 non-volatile RGBA-8888 bitmap with generation id 42. -/
def bm0 : SkBitmap :=
  { colorType := SkColorType.kRGBA_8888, alphaType := 0, colorSpace := 0,
    isVolatile := false, generationID := 42, pixelRefOriginX := 0,
    pixelRefOriginY := 0, width := 64, height := 64 }

/-- The same bitmap marked volatile. -/
def bmVol : SkBitmap := { bm0 with isVolatile := true }

/-- The same bitmap tagged with a different color space. -/
def bmCS : SkBitmap := { bm0 with colorSpace := 9 }

/-- A gray-8 variant of `bm0` (an encoding the fallback caps reject). -/
def bmGray : SkBitmap := { bm0 with colorType := SkColorType.kGray_8 }

/-- Caps that support every encoding as a non-renderable format. -/
def caps0 : GrCaps := { validNonRenderableFormat := fun _ => true }

/-- Caps that support no encoding as a non-renderable format. -/
def capsNone : GrCaps := { validNonRenderableFormat := fun _ => false }

/-- The maker built over `bm0` with caching requested. -/
def mk0 : GrBitmapTextureMaker :=
  GrBitmapTextureMaker.construct caps0 bm0 Cached.kYes SkBackingFit.kExact

/-- The maker built over `bmCS` with caching requested. -/
def mkCS : GrBitmapTextureMaker :=
  GrBitmapTextureMaker.construct caps0 bmCS Cached.kYes SkBackingFit.kExact

/-- The maker built over `bmGray` against `capsNone`. -/
def mkGray : GrBitmapTextureMaker :=
  GrBitmapTextureMaker.construct capsNone bmGray Cached.kYes SkBackingFit.kExact

/-- A freshly created un-mipped proxy. -/
def proxy1 : GrTextureProxy := { pid := 1, mipMapped := GrMipMapped.kNo }

/-- A mipped proxy (e.g. the result of the mip-upgrade copy). -/
def proxy2 : GrTextureProxy := { pid := 2, mipMapped := GrMipMapped.kYes }

/-- A cached un-mipped proxy found under the key. -/
def proxy7 : GrTextureProxy := { pid := 7, mipMapped := GrMipMapped.kNo }

/-- Environment: cached un-mipped proxy found, mip copy succeeds. -/
def envUpgradeOk : ProviderEnv :=
  { foundProxy := some proxy7, allocOk := true, readOk := true,
    createdProxy := none, mippedCopy := some proxy2 }

/-- Environment: cached un-mipped proxy found, mip copy fails. -/
def envUpgradeFail : ProviderEnv :=
  { foundProxy := some proxy7, allocOk := true, readOk := true,
    createdProxy := none, mippedCopy := none }

/-- Environment: miss, creation yields an un-mipped proxy, mip copy fails. -/
def envCreateNoMipFail : ProviderEnv :=
  { foundProxy := none, allocOk := true, readOk := true,
    createdProxy := some proxy1, mippedCopy := none }

/-- Environment: cached mipped proxy found. -/
def envHitMipped : ProviderEnv :=
  { foundProxy := some proxy2, allocOk := true, readOk := true,
    createdProxy := none, mippedCopy := none }

/-- Environment: miss, and the RGBA-8888 fallback allocation fails. -/
def envAllocFail : ProviderEnv :=
  { foundProxy := none, allocOk := false, readOk := true,
    createdProxy := some proxy1, mippedCopy := none }

/-! Theorems. -/

/-- After any trace ending in the key-migration suffix, the key's owner
is the mipped proxy. -/
theorem keyOwner_of_migration_suffix (init : Option Nat) (pre : List Event)
    (p mp : GrTextureProxy) :
    keyOwnerAfter init (pre ++ [Event.copyBaseMipMap p, Event.removeUniqueKeyFromProxy p,
      Event.assignUniqueKeyToProxy mp, Event.installInvalidator]) = some mp.pid := by
  simp [keyOwnerAfter, List.foldl_append, applyKeyEvent]

/-- Claim C5: with a valid key, a store hit whose resource already
satisfies the mip requirement is returned immediately: the whole trace
is the single lookup, so there is no conversion, no creation, no key
assignment or removal, and no invalidator installation. -/
theorem c5_cache_hit_no_further_work (m : GrBitmapTextureMaker) (env : ProviderEnv)
    (willBeMipped : Bool) (p : GrTextureProxy)
    (hkey : m.fOriginalKey.isSome = true)
    (hfound : env.foundProxy = some p)
    (hmip : willBeMipped = false ∨ p.mipMapped = GrMipMapped.kYes) :
    refOriginalTextureProxy m env willBeMipped AllowedTexGenType.kAny
      = (some p, [Event.findOrCreateByUniqueKey]) := by
  rcases hk : m.fOriginalKey with _ | k
  · rw [hk] at hkey; simp at hkey
  · rcases hmip with h | h <;> simp [refOriginalTextureProxy, hk, hfound, h]

theorem c5_witness :
    refOriginalTextureProxy mk0 envHitMipped true AllowedTexGenType.kAny
      = (some proxy2, [Event.findOrCreateByUniqueKey]) :=
  c5_cache_hit_no_further_work mk0 envHitMipped true proxy2 (by decide) (by decide)
    (Or.inr (by decide))

/-- Claim C4 (amended): with the cheap-only generation policy the
resolver returns empty unconditionally - even when a cached resource
exists under the key - and performs no store interaction at all. -/
theorem c4_cheap_returns_empty (m : GrBitmapTextureMaker) (env : ProviderEnv)
    (willBeMipped : Bool) :
    refOriginalTextureProxy m env willBeMipped AllowedTexGenType.kCheap = (none, []) := by
  simp [refOriginalTextureProxy]

/-- Claim C4, counterexample to the claim as stated: a cached mipped
resource is cheaply available under the valid key, yet the cheap-only
call returns empty rather than that resource. -/
theorem c4_counterexample :
    envHitMipped.foundProxy = some proxy2 ∧
    mk0.fOriginalKey.isSome = true ∧
    (refOriginalTextureProxy mk0 envHitMipped false AllowedTexGenType.kCheap).1 = none := by
  decide

/-- Claim C8: cache-key derivation is deterministic: two non-volatile
cached bitmaps with the same generation id and the same subset geometry
receive equal keys, whatever the caps, fits or remaining bitmap fields. -/
theorem c8_key_determinism (capsA capsB : GrCaps) (bmA bmB : SkBitmap)
    (fitA fitB : SkBackingFit)
    (hvA : bmA.isVolatile = false) (hvB : bmB.isVolatile = false)
    (hgen : bmA.generationID = bmB.generationID)
    (hox : bmA.pixelRefOriginX = bmB.pixelRefOriginX)
    (hoy : bmA.pixelRefOriginY = bmB.pixelRefOriginY)
    (hw : bmA.width = bmB.width) (hh : bmA.height = bmB.height) :
    (GrBitmapTextureMaker.construct capsA bmA Cached.kYes fitA).fOriginalKey
      = (GrBitmapTextureMaker.construct capsB bmB Cached.kYes fitB).fOriginalKey := by
  simp [GrBitmapTextureMaker.construct, hvA, hvB, hgen, hox, hoy, hw, hh]

theorem c8_witness :
    (GrBitmapTextureMaker.construct caps0 bm0 Cached.kYes SkBackingFit.kExact).fOriginalKey
      = (GrBitmapTextureMaker.construct capsNone bmCS Cached.kYes SkBackingFit.kApprox).fOriginalKey :=
  c8_key_determinism caps0 capsNone bm0 bmCS SkBackingFit.kExact SkBackingFit.kApprox
    rfl rfl rfl rfl rfl rfl rfl

/-- Claim C9: the copy key is defined iff `fOriginalKey` is valid, and
when it is, the result depends only on `fOriginalKey` and the copy
params: two makers with equal keys (whatever their bitmaps, e.g. with
different color spaces) derive equal copy keys. -/
theorem c9_copy_key_iff (m mB : GrBitmapTextureMaker) (copyParams : CopyParams) :
    ((m.makeCopyKey copyParams).isSome = m.fOriginalKey.isSome) ∧
    (m.fOriginalKey = mB.fOriginalKey →
      m.makeCopyKey copyParams = mB.makeCopyKey copyParams) := by
  constructor
  · rcases h : m.fOriginalKey with _ | k <;> simp [GrBitmapTextureMaker.makeCopyKey, h]
  · intro he
    unfold GrBitmapTextureMaker.makeCopyKey
    rw [he]

theorem c9_witness :
    mk0.makeCopyKey { filter := 1, width := 32, height := 32 }
      = mkCS.makeCopyKey { filter := 1, width := 32, height := 32 } :=
  (c9_copy_key_iff mk0 mkCS { filter := 1, width := 32, height := 32 }).2 (by decide)

/-- With an invalid `fOriginalKey`, no branch of the resolver emits a
key assignment or an invalidator installation. -/
theorem resolve_no_key_events (m : GrBitmapTextureMaker) (env : ProviderEnv)
    (willBeMipped : Bool) (ot : AllowedTexGenType)
    (hkey : m.fOriginalKey = none) :
    (∀ q, Event.assignUniqueKeyToProxy q
        ∉ (refOriginalTextureProxy m env willBeMipped ot).2) ∧
    Event.installInvalidator ∉ (refOriginalTextureProxy m env willBeMipped ot).2 := by
  rcases hot : ot with _ | _
  · simp [refOriginalTextureProxy]
  · rcases hcp : env.createdProxy with _ | p
    · by_cases hct : m.thisColorType = SkColorTypeToGrColorType m.fBitmap.colorType <;>
      rcases ha : env.allocOk <;> rcases hr : env.readOk <;>
      simp [refOriginalTextureProxy, createStep, afterCreateStep, hkey, hcp, hct, ha, hr]
    · by_cases hw : willBeMipped = false ∨ p.mipMapped = GrMipMapped.kYes <;>
      by_cases hct : m.thisColorType = SkColorTypeToGrColorType m.fBitmap.colorType <;>
      rcases hmc : env.mippedCopy with _ | mp <;>
      rcases ha : env.allocOk <;> rcases hr : env.readOk <;>
      simp [refOriginalTextureProxy, createStep, afterCreateStep, mipUpgradeStep,
        hkey, hcp, hct, hmc, ha, hr, hw]

/-- Claim C7: a volatile bitmap (or caching not requested) yields no
cache key; with no key the resolver never assigns a key nor installs an
invalidator; a non-volatile cached bitmap yields the key built from
`(generationID, MakeXYWH(origin, dimensions))`. -/
theorem c7_volatility_exclusion (caps : GrCaps) (bitmap : SkBitmap) (cached : Cached)
    (fit : SkBackingFit) (env : ProviderEnv) (willBeMipped : Bool) (ot : AllowedTexGenType)
    (m : GrBitmapTextureMaker) :
    (bitmap.isVolatile = true ∨ cached = Cached.kNo →
      (GrBitmapTextureMaker.construct caps bitmap cached fit).fOriginalKey = none) ∧
    (m.fOriginalKey = none →
      (∀ q, Event.assignUniqueKeyToProxy q
          ∉ (refOriginalTextureProxy m env willBeMipped ot).2) ∧
      Event.installInvalidator ∉ (refOriginalTextureProxy m env willBeMipped ot).2) ∧
    (bitmap.isVolatile = false ∧ cached = Cached.kYes →
      (GrBitmapTextureMaker.construct caps bitmap cached fit).fOriginalKey
        = some (GrMakeKeyFromImageID bitmap.generationID
            (SkIRect.MakeXYWH bitmap.pixelRefOriginX bitmap.pixelRefOriginY
              bitmap.width bitmap.height))) := by
  refine ⟨?_, ?_, ?_⟩
  · intro h
    rcases h with h | h <;> simp [GrBitmapTextureMaker.construct, h]
  · intro hkey
    exact resolve_no_key_events m env willBeMipped ot hkey
  · intro h
    simp [GrBitmapTextureMaker.construct, h.1, h.2]

theorem c7_witness :
    (GrBitmapTextureMaker.construct caps0 bmVol Cached.kYes SkBackingFit.kExact).fOriginalKey
      = none :=
  (c7_volatility_exclusion caps0 bmVol Cached.kYes SkBackingFit.kExact envHitMipped false
    AllowedTexGenType.kAny mk0).1 (Or.inl rfl)

/-- Claim C10: a keyed hit on a NotMipped proxy while mips are wanted
performs no pixel conversion and no creation from pixels: the trace goes
straight from the lookup to the base-copy of the found proxy. -/
theorem c10_insufficient_mips_hit (m : GrBitmapTextureMaker) (env : ProviderEnv)
    (p : GrTextureProxy)
    (hkey : m.fOriginalKey.isSome = true)
    (hfound : env.foundProxy = some p)
    (hnm : p.mipMapped = GrMipMapped.kNo) :
    Event.tryAllocPixels ∉ (refOriginalTextureProxy m env true AllowedTexGenType.kAny).2 ∧
    Event.readPixels ∉ (refOriginalTextureProxy m env true AllowedTexGenType.kAny).2 ∧
    (∀ fb r, Event.createFromBitmap fb r
        ∉ (refOriginalTextureProxy m env true AllowedTexGenType.kAny).2) ∧
    (refOriginalTextureProxy m env true AllowedTexGenType.kAny).2.take 2
      = [Event.findOrCreateByUniqueKey, Event.copyBaseMipMap p] := by
  rcases hk : m.fOriginalKey with _ | k
  · rw [hk] at hkey; simp at hkey
  · rcases hmc : env.mippedCopy with _ | mp <;>
    simp [refOriginalTextureProxy, mipUpgradeStep, hk, hfound, hnm, hmc]

theorem c10_witness :
    (refOriginalTextureProxy mk0 envUpgradeFail true AllowedTexGenType.kAny).2.take 2
      = [Event.findOrCreateByUniqueKey, Event.copyBaseMipMap proxy7] :=
  (c10_insufficient_mips_hit mk0 envUpgradeFail proxy7 (by decide) (by decide) rfl).2.2.2

/-- Claim C6: when the GPU reports the bitmap's native encoding invalid
as a non-renderable format, the maker's upload encoding falls back to
RGBA-8888 and resolution converts through an allocation plus read-back;
if either conversion step fails on a miss, resolution returns empty with
no resource created, no key assigned and no invalidator installed. -/
theorem c6_fallback_conversion_failure (caps : GrCaps) (bitmap : SkBitmap) (cached : Cached)
    (fit : SkBackingFit) (env : ProviderEnv) (willBeMipped : Bool)
    (m : GrBitmapTextureMaker)
    (hm : m = GrBitmapTextureMaker.construct caps bitmap cached fit)
    (hunsup : caps.validNonRenderableFormat (SkColorTypeToGrColorType bitmap.colorType) = false)
    (hnot8888 : SkColorTypeToGrColorType bitmap.colorType ≠ GrColorType.kRGBA_8888)
    (hmiss : m.fOriginalKey = none ∨ env.foundProxy = none)
    (hfail : env.allocOk = false ∨ env.readOk = false) :
    m.thisColorType = GrColorType.kRGBA_8888 ∧
    Event.tryAllocPixels ∈ (refOriginalTextureProxy m env willBeMipped AllowedTexGenType.kAny).2 ∧
    (refOriginalTextureProxy m env willBeMipped AllowedTexGenType.kAny).1 = none ∧
    (∀ fb r, Event.createFromBitmap fb r
        ∉ (refOriginalTextureProxy m env willBeMipped AllowedTexGenType.kAny).2) ∧
    (∀ q, Event.assignUniqueKeyToProxy q
        ∉ (refOriginalTextureProxy m env willBeMipped AllowedTexGenType.kAny).2) ∧
    Event.installInvalidator ∉ (refOriginalTextureProxy m env willBeMipped AllowedTexGenType.kAny).2 := by
  have hbm : m.fBitmap = bitmap := by rw [hm]; rfl
  have hct : m.thisColorType = GrColorType.kRGBA_8888 := by
    rw [hm]
    simp [GrBitmapTextureMaker.construct, get_image_info, hunsup]
  have hne : m.thisColorType ≠ SkColorTypeToGrColorType m.fBitmap.colorType := by
    rw [hct, hbm]
    exact fun h => hnot8888 h.symm
  refine ⟨hct, ?_⟩
  rcases hk : m.fOriginalKey with _ | k
  · rcases ha : env.allocOk
    · simp [refOriginalTextureProxy, createStep, hk, hne, ha]
    · have hr : env.readOk = false := by
        rcases hfail with h | h
        · rw [h] at ha; cases ha
        · exact h
      simp [refOriginalTextureProxy, createStep, hk, hne, ha, hr]
  · have hf : env.foundProxy = none := by
      rcases hmiss with h | h
      · rw [hk] at h; cases h
      · exact h
    rcases ha : env.allocOk
    · simp [refOriginalTextureProxy, createStep, hk, hf, hne, ha]
    · have hr : env.readOk = false := by
        rcases hfail with h | h
        · rw [h] at ha; cases ha
        · exact h
      simp [refOriginalTextureProxy, createStep, hk, hf, hne, ha, hr]

theorem c6_witness : mkGray.thisColorType = GrColorType.kRGBA_8888 :=
  (c6_fallback_conversion_failure capsNone bmGray Cached.kYes SkBackingFit.kExact envAllocFail
    true mkGray rfl rfl (by decide) (Or.inr rfl) (Or.inl rfl)).1

/-- Claim C1: whenever the resolver attempts the base-copy into a mipped
proxy, the key is valid and the copy succeeds, the result is the mipped
proxy and the trace ends with the migration suffix: the copy first, then
key removal from the old proxy, key assignment to the mipped proxy and
invalidator re-installation - so the migration happens only after the
copy returned a valid resource - and the key finally owns the mipped
proxy. -/
theorem c1_mip_upgrade_key_migration (m : GrBitmapTextureMaker) (env : ProviderEnv)
    (willBeMipped : Bool) (ot : AllowedTexGenType) (mp p : GrTextureProxy)
    (hkey : m.fOriginalKey.isSome = true)
    (hcopy : env.mippedCopy = some mp)
    (hmem : Event.copyBaseMipMap p ∈ (refOriginalTextureProxy m env willBeMipped ot).2) :
    (refOriginalTextureProxy m env willBeMipped ot).1 = some mp ∧
    (∃ pre, (refOriginalTextureProxy m env willBeMipped ot).2
        = pre ++ [Event.copyBaseMipMap p, Event.removeUniqueKeyFromProxy p,
                  Event.assignUniqueKeyToProxy mp, Event.installInvalidator]) ∧
    keyOwnerAfter (initialKeyOwner m env) (refOriginalTextureProxy m env willBeMipped ot).2
      = some mp.pid := by
  rcases hk : m.fOriginalKey with _ | k
  · rw [hk] at hkey; simp at hkey
  rcases hot : ot with _ | _
  · rw [hot] at hmem; simp [refOriginalTextureProxy] at hmem
  subst hot
  rcases hf : env.foundProxy with _ | p0
  · -- miss with a valid key: the creation path
    rcases hcp : env.createdProxy with _ | q
    · by_cases hct : m.thisColorType = SkColorTypeToGrColorType m.fBitmap.colorType <;>
      rcases ha : env.allocOk <;> rcases hr : env.readOk <;>
      simp [refOriginalTextureProxy, createStep, afterCreateStep, hk, hf, hcp, hct, ha, hr]
        at hmem
    · by_cases hw : willBeMipped = false ∨ q.mipMapped = GrMipMapped.kYes
      · by_cases hct : m.thisColorType = SkColorTypeToGrColorType m.fBitmap.colorType <;>
        rcases ha : env.allocOk <;> rcases hr : env.readOk <;>
        simp [refOriginalTextureProxy, createStep, afterCreateStep, hk, hf, hcp, hct, ha,
          hr, hw] at hmem
      · push_neg at hw
        have hw1 : willBeMipped = true := by
          cases hwb : willBeMipped
          · exact absurd hwb hw.1
          · rfl
        have hw2 : q.mipMapped = GrMipMapped.kNo := by
          cases hq : q.mipMapped
          · rfl
          · exact absurd hq hw.2
        subst hw1
        by_cases hct : m.thisColorType = SkColorTypeToGrColorType m.fBitmap.colorType
        · have hres : refOriginalTextureProxy m env true AllowedTexGenType.kAny
              = (some mp, [Event.findOrCreateByUniqueKey,
                  Event.createFromBitmap false GrMipMapped.kYes,
                  Event.assignUniqueKeyToProxy q, Event.copyBaseMipMap q,
                  Event.removeUniqueKeyFromProxy q, Event.assignUniqueKeyToProxy mp,
                  Event.installInvalidator]) := by
            simp [refOriginalTextureProxy, createStep, afterCreateStep, mipUpgradeStep,
              hk, hf, hcp, hct, hw2, hcopy]
          have hpq : p = q := by
            rw [hres] at hmem
            simp at hmem
            exact hmem
          subst hpq
          refine ⟨by rw [hres], ⟨[Event.findOrCreateByUniqueKey,
            Event.createFromBitmap false GrMipMapped.kYes,
            Event.assignUniqueKeyToProxy p], by simp [hres]⟩, ?_⟩
          rw [hres]
          simp [keyOwnerAfter, initialKeyOwner, applyKeyEvent, hk, hf]
        · rcases ha : env.allocOk
          · simp [refOriginalTextureProxy, createStep, hk, hf, hct, ha] at hmem
          · rcases hr : env.readOk
            · simp [refOriginalTextureProxy, createStep, hk, hf, hct, ha, hr] at hmem
            · have hres : refOriginalTextureProxy m env true AllowedTexGenType.kAny
                  = (some mp, [Event.findOrCreateByUniqueKey, Event.tryAllocPixels,
                      Event.readPixels, Event.createFromBitmap true GrMipMapped.kYes,
                      Event.assignUniqueKeyToProxy q, Event.copyBaseMipMap q,
                      Event.removeUniqueKeyFromProxy q, Event.assignUniqueKeyToProxy mp,
                      Event.installInvalidator]) := by
                simp [refOriginalTextureProxy, createStep, afterCreateStep, mipUpgradeStep,
                  hk, hf, hcp, hct, ha, hr, hw2, hcopy]
              have hpq : p = q := by
                rw [hres] at hmem
                simp at hmem
                exact hmem
              subst hpq
              refine ⟨by rw [hres], ⟨[Event.findOrCreateByUniqueKey, Event.tryAllocPixels,
                Event.readPixels, Event.createFromBitmap true GrMipMapped.kYes,
                Event.assignUniqueKeyToProxy p], by simp [hres]⟩, ?_⟩
              rw [hres]
              simp [keyOwnerAfter, initialKeyOwner, applyKeyEvent, hk, hf]
  · -- keyed hit on an un-mipped proxy
    by_cases hw : willBeMipped = false ∨ p0.mipMapped = GrMipMapped.kYes
    · simp [refOriginalTextureProxy, hk, hf, hw] at hmem
    · have hres : refOriginalTextureProxy m env willBeMipped AllowedTexGenType.kAny
          = (some mp, [Event.findOrCreateByUniqueKey, Event.copyBaseMipMap p0,
              Event.removeUniqueKeyFromProxy p0, Event.assignUniqueKeyToProxy mp,
              Event.installInvalidator]) := by
        simp [refOriginalTextureProxy, mipUpgradeStep, hk, hf, hw, hcopy]
      have hpq : p = p0 := by
        rw [hres] at hmem
        simp at hmem
        exact hmem
      subst hpq
      refine ⟨by rw [hres], ⟨[Event.findOrCreateByUniqueKey], by simp [hres]⟩, ?_⟩
      rw [hres]
      simp [keyOwnerAfter, initialKeyOwner, applyKeyEvent, hk, hf]

theorem c1_witness :
    (refOriginalTextureProxy mk0 envUpgradeOk true AllowedTexGenType.kAny).1 = some proxy2 :=
  (c1_mip_upgrade_key_migration mk0 envUpgradeOk true AllowedTexGenType.kAny proxy2 proxy7
    (by decide) (by decide) (by decide)).1

/-- Claim C2: whenever the resolver attempts the base-copy into a mipped
proxy and the copy fails, the call was a mips-wanted resolution, the
proxy being upgraded is NotMipped, that original proxy (not empty) is
returned, and - when the key is valid - the key still owns that proxy
when the call ends. -/
theorem c2_upgrade_failure_degradation (m : GrBitmapTextureMaker) (env : ProviderEnv)
    (willBeMipped : Bool) (ot : AllowedTexGenType) (p : GrTextureProxy)
    (hfail : env.mippedCopy = none)
    (hmem : Event.copyBaseMipMap p ∈ (refOriginalTextureProxy m env willBeMipped ot).2) :
    willBeMipped = true ∧
    p.mipMapped = GrMipMapped.kNo ∧
    (refOriginalTextureProxy m env willBeMipped ot).1 = some p ∧
    (m.fOriginalKey.isSome = true →
      keyOwnerAfter (initialKeyOwner m env) (refOriginalTextureProxy m env willBeMipped ot).2
        = some p.pid) := by
  rcases hot : ot with _ | _
  · rw [hot] at hmem; simp [refOriginalTextureProxy] at hmem
  subst hot
  rcases hk : m.fOriginalKey with _ | k
  · -- invalid key: the creation path with keyValid false
    rcases hcp : env.createdProxy with _ | q
    · by_cases hct : m.thisColorType = SkColorTypeToGrColorType m.fBitmap.colorType <;>
      rcases ha : env.allocOk <;> rcases hr : env.readOk <;>
      simp [refOriginalTextureProxy, createStep, afterCreateStep, hk, hcp, hct, ha, hr]
        at hmem
    · by_cases hw : willBeMipped = false ∨ q.mipMapped = GrMipMapped.kYes
      · by_cases hct : m.thisColorType = SkColorTypeToGrColorType m.fBitmap.colorType <;>
        rcases ha : env.allocOk <;> rcases hr : env.readOk <;>
        simp [refOriginalTextureProxy, createStep, afterCreateStep, hk, hcp, hct, ha,
          hr, hw] at hmem
      · push_neg at hw
        have hw1 : willBeMipped = true := by
          cases hwb : willBeMipped
          · exact absurd hwb hw.1
          · rfl
        have hw2 : q.mipMapped = GrMipMapped.kNo := by
          cases hq : q.mipMapped
          · rfl
          · exact absurd hq hw.2
        subst hw1
        by_cases hct : m.thisColorType = SkColorTypeToGrColorType m.fBitmap.colorType
        · have hres : refOriginalTextureProxy m env true AllowedTexGenType.kAny
              = (some q, [Event.createFromBitmap false GrMipMapped.kYes,
                  Event.copyBaseMipMap q]) := by
            simp [refOriginalTextureProxy, createStep, afterCreateStep, mipUpgradeStep,
              hk, hcp, hct, hw2, hfail]
          have hpq : p = q := by
            rw [hres] at hmem
            simp at hmem
            exact hmem
          subst hpq
          refine ⟨rfl, hw2, by rw [hres], ?_⟩
          intro hsome
          simp [hk] at hsome
        · rcases ha : env.allocOk
          · simp [refOriginalTextureProxy, createStep, hk, hct, ha] at hmem
          · rcases hr : env.readOk
            · simp [refOriginalTextureProxy, createStep, hk, hct, ha, hr] at hmem
            · have hres : refOriginalTextureProxy m env true AllowedTexGenType.kAny
                  = (some q, [Event.tryAllocPixels, Event.readPixels,
                      Event.createFromBitmap true GrMipMapped.kYes,
                      Event.copyBaseMipMap q]) := by
                simp [refOriginalTextureProxy, createStep, afterCreateStep, mipUpgradeStep,
                  hk, hcp, hct, ha, hr, hw2, hfail]
              have hpq : p = q := by
                rw [hres] at hmem
                simp at hmem
                exact hmem
              subst hpq
              refine ⟨rfl, hw2, by rw [hres], ?_⟩
              intro hsome
              simp [hk] at hsome
  · rcases hf : env.foundProxy with _ | p0
    · -- miss with a valid key: creation path with keyValid true
      rcases hcp : env.createdProxy with _ | q
      · by_cases hct : m.thisColorType = SkColorTypeToGrColorType m.fBitmap.colorType <;>
        rcases ha : env.allocOk <;> rcases hr : env.readOk <;>
        simp [refOriginalTextureProxy, createStep, afterCreateStep, hk, hf, hcp, hct, ha,
          hr] at hmem
      · by_cases hw : willBeMipped = false ∨ q.mipMapped = GrMipMapped.kYes
        · by_cases hct : m.thisColorType = SkColorTypeToGrColorType m.fBitmap.colorType <;>
          rcases ha : env.allocOk <;> rcases hr : env.readOk <;>
          simp [refOriginalTextureProxy, createStep, afterCreateStep, hk, hf, hcp, hct,
            ha, hr, hw] at hmem
        · push_neg at hw
          have hw1 : willBeMipped = true := by
            cases hwb : willBeMipped
            · exact absurd hwb hw.1
            · rfl
          have hw2 : q.mipMapped = GrMipMapped.kNo := by
            cases hq : q.mipMapped
            · rfl
            · exact absurd hq hw.2
          subst hw1
          by_cases hct : m.thisColorType = SkColorTypeToGrColorType m.fBitmap.colorType
          · have hres : refOriginalTextureProxy m env true AllowedTexGenType.kAny
                = (some q, [Event.findOrCreateByUniqueKey,
                    Event.createFromBitmap false GrMipMapped.kYes,
                    Event.assignUniqueKeyToProxy q, Event.copyBaseMipMap q]) := by
              simp [refOriginalTextureProxy, createStep, afterCreateStep, mipUpgradeStep,
                hk, hf, hcp, hct, hw2, hfail]
            have hpq : p = q := by
              rw [hres] at hmem
              simp at hmem
              exact hmem
            subst hpq
            refine ⟨rfl, hw2, by rw [hres], fun _ => ?_⟩
            rw [hres]
            simp [keyOwnerAfter, initialKeyOwner, applyKeyEvent, hk, hf]
          · rcases ha : env.allocOk
            · simp [refOriginalTextureProxy, createStep, hk, hf, hct, ha] at hmem
            · rcases hr : env.readOk
              · simp [refOriginalTextureProxy, createStep, hk, hf, hct, ha, hr] at hmem
              · have hres : refOriginalTextureProxy m env true AllowedTexGenType.kAny
                    = (some q, [Event.findOrCreateByUniqueKey, Event.tryAllocPixels,
                        Event.readPixels, Event.createFromBitmap true GrMipMapped.kYes,
                        Event.assignUniqueKeyToProxy q, Event.copyBaseMipMap q]) := by
                  simp [refOriginalTextureProxy, createStep, afterCreateStep,
                    mipUpgradeStep, hk, hf, hcp, hct, ha, hr, hw2, hfail]
                have hpq : p = q := by
                  rw [hres] at hmem
                  simp at hmem
                  exact hmem
                subst hpq
                refine ⟨rfl, hw2, by rw [hres], fun _ => ?_⟩
                rw [hres]
                simp [keyOwnerAfter, initialKeyOwner, applyKeyEvent, hk, hf]
    · -- keyed hit on an un-mipped proxy, upgrade fails
      by_cases hw : willBeMipped = false ∨ p0.mipMapped = GrMipMapped.kYes
      · simp [refOriginalTextureProxy, hk, hf, hw] at hmem
      · push_neg at hw
        have hw1 : willBeMipped = true := by
          cases hwb : willBeMipped
          · exact absurd hwb hw.1
          · rfl
        have hw2 : p0.mipMapped = GrMipMapped.kNo := by
          cases hq : p0.mipMapped
          · rfl
          · exact absurd hq hw.2
        subst hw1
        have hres : refOriginalTextureProxy m env true AllowedTexGenType.kAny
            = (some p0, [Event.findOrCreateByUniqueKey, Event.copyBaseMipMap p0]) := by
          simp [refOriginalTextureProxy, mipUpgradeStep, hk, hf, hw2, hfail]
        have hpq : p = p0 := by
          rw [hres] at hmem
          simp at hmem
          exact hmem
        subst hpq
        refine ⟨rfl, hw2, by rw [hres], fun _ => ?_⟩
        rw [hres]
        simp [keyOwnerAfter, initialKeyOwner, applyKeyEvent, hk, hf]

theorem c2_witness :
    (refOriginalTextureProxy mk0 envUpgradeFail true AllowedTexGenType.kAny).1 = some proxy7 :=
  (c2_upgrade_failure_degradation mk0 envUpgradeFail true AllowedTexGenType.kAny proxy7
    (by decide) (by decide)).2.2.1

/-- Claim C3, counterexample to the claim as stated: with a valid key,
creation succeeds (un-mipped while mips were wanted) and the mip copy
then fails; the call returns the created proxy, yet zero invalidator
installations happened, not exactly one per successful creation. -/
theorem c3_counterexample :
    mk0.fOriginalKey.isSome = true ∧
    envCreateNoMipFail.createdProxy = some proxy1 ∧
    (refOriginalTextureProxy mk0 envCreateNoMipFail true AllowedTexGenType.kAny).1
      = some proxy1 ∧
    countInstalls (refOriginalTextureProxy mk0 envCreateNoMipFail true
      AllowedTexGenType.kAny).2 = 0 := by
  decide

/-- Claim C3 (amended): when creation succeeds and the key is valid, the
key is assigned to the new proxy, and the invalidator is installed
exactly once - except on the path where the fresh proxy is un-mipped,
mips were wanted and the mip-upgrade copy fails, where the key stays
assigned but no invalidator is installed at all. -/
theorem c3_creation_key_and_hook (m : GrBitmapTextureMaker) (env : ProviderEnv)
    (willBeMipped : Bool) (ot : AllowedTexGenType) (p : GrTextureProxy)
    (fb : Bool) (req : GrMipMapped)
    (hkey : m.fOriginalKey.isSome = true)
    (hcreated : env.createdProxy = some p)
    (hmem : Event.createFromBitmap fb req ∈ (refOriginalTextureProxy m env willBeMipped ot).2) :
    Event.assignUniqueKeyToProxy p ∈ (refOriginalTextureProxy m env willBeMipped ot).2 ∧
    countInstalls (refOriginalTextureProxy m env willBeMipped ot).2
      = (if willBeMipped = true ∧ p.mipMapped = GrMipMapped.kNo ∧ env.mippedCopy = none
         then 0 else 1) := by
  rcases hk : m.fOriginalKey with _ | k
  · rw [hk] at hkey; simp at hkey
  rcases hot : ot with _ | _
  · rw [hot] at hmem; simp [refOriginalTextureProxy] at hmem
  subst hot
  rcases hf : env.foundProxy with _ | p0
  · by_cases hw : willBeMipped = false ∨ p.mipMapped = GrMipMapped.kYes
    · -- mip requirement satisfied at creation: assign then install
      have hcond : ¬(willBeMipped = true ∧ p.mipMapped = GrMipMapped.kNo
          ∧ env.mippedCopy = none) := by
        rcases hw with h | h
        · rw [h]; simp
        · rw [h]; simp
      by_cases hct : m.thisColorType = SkColorTypeToGrColorType m.fBitmap.colorType <;>
      rcases ha : env.allocOk <;> rcases hr : env.readOk <;>
      simp [refOriginalTextureProxy, createStep, afterCreateStep, countInstalls,
        hk, hf, hcreated, hct, ha, hr, hw, hcond] at hmem ⊢
    · push_neg at hw
      have hw1 : willBeMipped = true := by
        cases hwb : willBeMipped
        · exact absurd hwb hw.1
        · rfl
      have hw2 : p.mipMapped = GrMipMapped.kNo := by
        cases hq : p.mipMapped
        · rfl
        · exact absurd hq hw.2
      subst hw1
      rcases hmc : env.mippedCopy with _ | mp
      · -- upgrade fails: key assigned, no invalidator
        by_cases hct : m.thisColorType = SkColorTypeToGrColorType m.fBitmap.colorType <;>
        rcases ha : env.allocOk <;> rcases hr : env.readOk <;>
        simp [refOriginalTextureProxy, createStep, afterCreateStep, mipUpgradeStep,
          countInstalls, hk, hf, hcreated, hct, ha, hr, hw2, hmc] at hmem ⊢
      · -- upgrade succeeds: the one installation is after migration
        by_cases hct : m.thisColorType = SkColorTypeToGrColorType m.fBitmap.colorType <;>
        rcases ha : env.allocOk <;> rcases hr : env.readOk <;>
        simp [refOriginalTextureProxy, createStep, afterCreateStep, mipUpgradeStep,
          countInstalls, hk, hf, hcreated, hct, ha, hr, hw2, hmc] at hmem ⊢
  · -- a keyed hit never reaches creation: refute hmem
    by_cases hw : willBeMipped = false ∨ p0.mipMapped = GrMipMapped.kYes
    · simp [refOriginalTextureProxy, hk, hf, hw] at hmem
    · rcases hmc : env.mippedCopy with _ | mp <;>
      simp [refOriginalTextureProxy, mipUpgradeStep, hk, hf, hw, hmc] at hmem

theorem c3_witness :
    Event.assignUniqueKeyToProxy proxy1
      ∈ (refOriginalTextureProxy mk0 envCreateNoMipFail true AllowedTexGenType.kAny).2 :=
  (c3_creation_key_and_hook mk0 envCreateNoMipFail true AllowedTexGenType.kAny proxy1 false
    GrMipMapped.kYes (by decide) (by decide) (by decide)).1
